import Mathlib

/-
Verification of the diabetes data analysis pipeline.

The embedding models the analytics engine (AnalyzeDiabetesDbData), the
hour-grouping table of the file transformer (FileTransformer), and the
value-normalisation helpers of the CGM format adapter
(DecomClarityTransformer).

Modelling conventions:
  - a table (pandas DataFrame) is a List of rows;
  - a row of the canonical schema is a structure with the columns
    datetime, glucose, carbs, bolus, basal, hour, hour_group;
  - timestamps are integers counting minutes, so that the timedelta
    arithmetic of the source (hours=2, minutes=30, and so on) is exact
    integer arithmetic;
  - numeric cell values are rationals; Python float arithmetic on the
    magnitudes involved here is exact for the concrete inputs used, and
    the claims are about the algebraic structure of the computations,
    not about rounding;
  - the one place where IEEE special values matter (the new_ratio
    column of recalculate_bolus_ratio, whose divisions can produce
    inf or NaN before fillna(0)) is modelled with an explicit extended
    value type PVal carrying fin, posInf, negInf and nan, with the
    IEEE addition and division rules.
-/

namespace Diabetes

/-- Row of the canonical table schema produced by the transformer and
consumed by the analytics engine: columns datetime, glucose, carbs,
bolus, basal, hour, hour_group. -/
structure Row where
  datetime : ℤ := 0
  glucose : ℚ := 0
  carbs : ℚ := 0
  bolus : ℚ := 0
  basal : ℚ := 0
  hour : ℕ := 0
  hour_group : ℕ := 0
deriving DecidableEq, Repr

/-- Arithmetic mean used by pandas Series.mean on a nonempty series;
the source only calls it behind a nonemptiness guard or, for
calculate_total_daily_dose, under the nonempty-subset assumption of
the claims. -/
def mean (l : List ℚ) : ℚ := l.sum / l.length

/-- Source create_glucose_dataframe: df[(df.glucose > 0)]. -/
def create_glucose_dataframe (df : List Row) : List Row :=
  df.filter (fun r => 0 < r.glucose)

/-- Source create_bolus_dataframe: df[(df.bolus > 0)]. -/
def create_bolus_dataframe (df : List Row) : List Row :=
  df.filter (fun r => 0 < r.bolus)

/-- Source create_basal_dataframe: df[(df.basal > 0)]. -/
def create_basal_dataframe (df : List Row) : List Row :=
  df.filter (fun r => 0 < r.basal)

/-- Source create_carbs_dataframe: df[(df.carbs > 0)]. -/
def create_carbs_dataframe (df : List Row) : List Row :=
  df.filter (fun r => 0 < r.carbs)

/-- Source calculate_total_daily_dose: mean of the basal column of the
basal subset plus mean of the bolus column of the bolus subset. -/
def calculate_total_daily_dose (df : List Row) : ℚ :=
  mean ((create_basal_dataframe df).map Row.basal)
    + mean ((create_bolus_dataframe df).map Row.bolus)

/-- Source calculate_insulin_sensitivity_factor: 1800 / TDD. -/
def calculate_insulin_sensitivity_factor (df : List Row) : ℚ :=
  1800 / calculate_total_daily_dose df

/-- Source calculate_target_deviation: for a row with carbs > 0, select
from df_glucose the rows whose datetime lies in the closed window
[row.datetime + 2h30m - 30m, row.datetime + 2h30m + 30m]; return 0.0
on an empty selection, otherwise (mean glucose - target) / isf; rows
with carbs == 0 return 0.0. Timestamps are minutes, so 2h30m is 150. -/
def calculate_target_deviation (row : Row) (df_glucose : List Row)
    (isf : ℚ) (target : ℚ) : ℚ :=
  if 0 < row.carbs then
    let temp_dt := row.datetime + 150
    let minutes_before_5 := temp_dt - 30
    let minutes_after_5 := temp_dt + 30
    let temp_glucose_df := df_glucose.filter
      (fun g => minutes_before_5 ≤ g.datetime ∧ g.datetime ≤ minutes_after_5)
    if temp_glucose_df.isEmpty then 0
    else (mean (temp_glucose_df.map Row.glucose) - target) / isf
  else 0

/-- Source calculate_bolus_ratio: for a row with carbs > 0, select from
df_bolus the rows whose datetime lies in the closed window
[row.datetime - 15m, row.datetime + 15m]; return 0.0 on an empty
selection, otherwise carbs / mean bolus; rows with carbs == 0 return
0.0. -/
def calculate_bolus_ratio (row : Row) (df_bolus : List Row) : ℚ :=
  if 0 < row.carbs then
    let minutes_before_15 := row.datetime - 15
    let minutes_after_15 := row.datetime + 15
    let temp_bolus_df := df_bolus.filter
      (fun b => minutes_before_15 ≤ b.datetime ∧ b.datetime ≤ minutes_after_15)
    if temp_bolus_df.isEmpty then 0
    else row.carbs / mean (temp_bolus_df.map Row.bolus)
  else 0

/-- Source add_target_deviation_to_dataframe: resolve isf (computing
the ISF of the table when the argument is 0), then add a
target_deviation column computed per row against the glucose subset of
the input table. The enriched row is the pair of the original row and
the new column value. -/
def add_target_deviation_to_dataframe (df : List Row) (isf : ℚ)
    (target : ℚ) : List (Row × ℚ) :=
  let isf2 := if isf = 0 then calculate_insulin_sensitivity_factor df else isf
  df.map (fun r =>
    (r, calculate_target_deviation r (create_glucose_dataframe df) isf2 target))

/-- Source add_bolus_ratio_to_dataframe: add a bolus_ratio column
computed per row against the bolus subset of the input table. -/
def add_bolus_ratio_to_dataframe (df : List Row) : List (Row × ℚ) :=
  df.map (fun r => (r, calculate_bolus_ratio r (create_bolus_dataframe df)))

/-- Extended numeric value modelling a pandas float64 cell: a finite
rational, positive or negative infinity, or NaN. Used where the source
performs unguarded vectorised division (the new_ratio column), whose
IEEE special values decide the claims about fillna. -/
inductive PVal where
  | fin (q : ℚ)
  | posInf
  | negInf
  | nan
deriving DecidableEq, Repr

/-- IEEE addition on extended values: NaN propagates, opposite
infinities give NaN, an infinity absorbs a finite value. -/
def PVal.add : PVal → PVal → PVal
  | PVal.nan, _ => PVal.nan
  | _, PVal.nan => PVal.nan
  | PVal.posInf, PVal.negInf => PVal.nan
  | PVal.negInf, PVal.posInf => PVal.nan
  | PVal.posInf, _ => PVal.posInf
  | _, PVal.posInf => PVal.posInf
  | PVal.negInf, _ => PVal.negInf
  | _, PVal.negInf => PVal.negInf
  | PVal.fin a, PVal.fin b => PVal.fin (a + b)

/-- IEEE division on extended values: NaN propagates; 0/0 and inf/inf
are NaN; a nonzero finite value divided by 0 is a signed infinity; a
finite value divided by an infinity is 0; an infinity divided by a
finite value is a signed infinity. -/
def PVal.div : PVal → PVal → PVal
  | PVal.nan, _ => PVal.nan
  | _, PVal.nan => PVal.nan
  | PVal.posInf, PVal.posInf => PVal.nan
  | PVal.posInf, PVal.negInf => PVal.nan
  | PVal.negInf, PVal.posInf => PVal.nan
  | PVal.negInf, PVal.negInf => PVal.nan
  | PVal.posInf, PVal.fin b => if 0 ≤ b then PVal.posInf else PVal.negInf
  | PVal.negInf, PVal.fin b => if 0 ≤ b then PVal.negInf else PVal.posInf
  | PVal.fin _, PVal.posInf => PVal.fin 0
  | PVal.fin _, PVal.negInf => PVal.fin 0
  | PVal.fin a, PVal.fin b =>
      if b = 0 then
        if a = 0 then PVal.nan
        else if 0 < a then PVal.posInf else PVal.negInf
      else PVal.fin (a / b)

/-- Pandas Series.fillna(0): replaces NaN by 0 and leaves every other
value, infinities included, untouched. -/
def PVal.fillna0 : PVal → PVal
  | PVal.nan => PVal.fin 0
  | v => v

/-- Output row of recalculate_bolus_ratio: the original columns plus
bolus_ratio, target_deviation and new_ratio. -/
structure RowR where
  base : Row
  bolus_ratio : ℚ
  target_deviation : ℚ
  new_ratio : PVal
deriving DecidableEq, Repr

/-- Source recalculate_bolus_ratio: copy the table, add the
bolus_ratio column, add the target_deviation column (resolving
isf == 0 to the internally computed ISF; this and the window subsets
are computed on the enriched table, whose pre-existing columns equal
those of the input, so they are evaluated on the input rows), then set
new_ratio = carbs / ((carbs / bolus_ratio) + target_deviation) by
vectorised float division and apply fillna(0). -/
def recalculate_bolus_ratio (df : List Row) (isf : ℚ) (target : ℚ) :
    List RowR :=
  let isf2 := if isf = 0 then calculate_insulin_sensitivity_factor df else isf
  df.map (fun r =>
    let br := calculate_bolus_ratio r (create_bolus_dataframe df)
    let td := calculate_target_deviation r (create_glucose_dataframe df)
      isf2 target
    let nr := PVal.fillna0
      (PVal.div (PVal.fin r.carbs)
        (PVal.add (PVal.div (PVal.fin r.carbs) (PVal.fin br)) (PVal.fin td)))
    RowR.mk r br td nr)

/-- State threaded through the dictionary-building loops of
get_hour_grouping_dict: the grouping dict, the lookup dict (as
association lists) and the running counter cnt. -/
structure HourDictState where
  grouping : List (ℕ × List ℕ)
  lookup : List (ℤ × ℕ)
  cnt : ℕ
deriving Repr

/-- Source get_hour_grouping_dict: for k in range(8), start an empty
bucket, then for each of 3 inner iterations append cnt to bucket k,
record cnt maps to k in the lookup dict, and increment cnt. Returns
the pair of the grouping dict and the lookup dict. -/
def get_hour_grouping_dict : List (ℕ × List ℕ) × List (ℤ × ℕ) :=
  let final := (List.range 8).foldl
    (fun st k =>
      let st1 := { st with grouping := st.grouping ++ [(k, [])] }
      (List.range 3).foldl
        (fun st2 _ =>
          { grouping := st2.grouping.map
              (fun p => if p.1 = k then (p.1, p.2 ++ [st2.cnt]) else p),
            lookup := st2.lookup ++ [((st2.cnt : ℤ), k)],
            cnt := st2.cnt + 1 })
        st1)
    (HourDictState.mk [] [] 0)
  (final.grouping, final.lookup)

/-- Python dict subscript on the lookup dict, as used by the lambda of
source _add_hr_and_hrgrp: defined on recorded keys, a KeyError (none)
otherwise. -/
def hour_group_of (h : ℤ) : Option ℕ :=
  (get_hour_grouping_dict.2).lookup h

/-- Input row of the CGM adapter after column renaming: the fields read
by the finishing-step helpers. -/
structure ClarityRow where
  eventType : String
  eventSubtype : String
  insulin : ℚ
deriving DecidableEq, Repr

/-- Source _populate_bolus_insulin: the insulin value when Event Type
is Insulin and Event Subtype is Fast-Acting, else 0. -/
def populate_bolus_insulin (row : ClarityRow) : ℚ :=
  if row.eventType = "Insulin" ∧ row.eventSubtype = "Fast-Acting" then
    row.insulin
  else 0

/-- Source _populate_basal_insulin: the insulin value when Event Type
is Insulin and Event Subtype is Long-Acting, else 0. -/
def populate_basal_insulin (row : ClarityRow) : ℚ :=
  if row.eventType = "Insulin" ∧ row.eventSubtype = "Long-Acting" then
    row.insulin
  else 0

/-- Value of a list of decimal digit characters read left to right, as
by numeric parsing. -/
def digitsVal (l : List Char) : ℕ :=
  l.foldl (fun a c => a * 10 + (c.toNat - 48)) 0

/-- Model of the Python float builtin on decimal literals: an optional
sign, an integer part, and an optional fractional part after a single
dot, with at least one digit overall; anything else fails (ValueError,
here none). -/
def float_of_string (s : String) : Option ℚ :=
  let l := s.toList
  let sgn : ℚ × List Char :=
    match l with
    | '-' :: rest => (-1, rest)
    | '+' :: rest => (1, rest)
    | _ => (1, l)
  let intPart := sgn.2.takeWhile Char.isDigit
  let rest := sgn.2.dropWhile Char.isDigit
  match rest with
  | [] => if intPart.isEmpty then none else some (sgn.1 * digitsVal intPart)
  | '.' :: frac =>
      if frac.all Char.isDigit ∧ ¬(intPart.isEmpty ∧ frac.isEmpty) then
        some (sgn.1 *
          ((digitsVal intPart : ℚ) + (digitsVal frac : ℚ) / 10 ^ frac.length))
      else none
  | _ => none

/-- Source _transform_glucose: the sentinel "High" maps to 400.0, the
sentinel "Low" maps to 40.0, and any other glucose cell is passed to
float(); a failing conversion raises (none). -/
def transform_glucose (glucose : String) : Option ℚ :=
  if glucose = "High" then some 400
  else if glucose = "Low" then some 40
  else float_of_string glucose

/-
Spec-side definitions, written from the words of the claims, to be
compared with the source-side definitions above.
-/

/-- Claim C1 wording: for a row with carbs > 0, take all glucose rows
of the glucose subset of the table (rows with glucose > 0) whose
timestamp lies in the closed window from the timestamp plus 2 hours
to the timestamp plus 3 hours; 0.0 when empty, otherwise
(mean glucose - target) / isf; 0.0 when carbs == 0. -/
def spec_target_deviation (df : List Row) (row : Row) (isf : ℚ)
    (target : ℚ) : ℚ :=
  if 0 < row.carbs then
    let sel := (df.filter (fun g => 0 < g.glucose)).filter
      (fun g => row.datetime + 120 ≤ g.datetime ∧
        g.datetime ≤ row.datetime + 180)
    if sel.isEmpty then 0 else (mean (sel.map Row.glucose) - target) / isf
  else 0

/-- Claim C2 wording: for a row with carbs > 0, take all rows of the
bolus subset of the table (rows with bolus > 0) whose timestamp lies in
the closed window of plus or minus 15 minutes around the timestamp;
0.0 when empty, otherwise carbs / mean bolus; 0.0 when carbs == 0. -/
def spec_bolus_ratio (df : List Row) (row : Row) : ℚ :=
  if 0 < row.carbs then
    let sel := (df.filter (fun b => 0 < b.bolus)).filter
      (fun b => row.datetime - 15 ≤ b.datetime ∧
        b.datetime ≤ row.datetime + 15)
    if sel.isEmpty then 0 else row.carbs / mean (sel.map Row.bolus)
  else 0

/-- Claim C3 wording: the mean of the basal values over rows where
basal is nonzero plus the mean of the bolus values over rows where
bolus is nonzero. -/
def spec_total_daily_dose (df : List Row) : ℚ :=
  mean ((df.filter (fun r => r.basal ≠ 0)).map Row.basal)
    + mean ((df.filter (fun r => r.bolus ≠ 0)).map Row.bolus)

/-
Theorems settling the claims.
-/

/-- C1: for every row, calculate_target_deviation evaluated against the
glucose subset of the table (rows with glucose > 0) equals the claimed
formula: 0.0 when carbs == 0; otherwise select the glucose rows whose
timestamp lies in the closed window from the timestamp plus 2 hours to
the timestamp plus 3 hours, giving 0.0 on an empty selection and
(mean glucose - target) / isf otherwise. -/
theorem target_deviation_matches_spec (df : List Row) (row : Row)
    (isf target : ℚ) :
    calculate_target_deviation row (create_glucose_dataframe df) isf target
      = spec_target_deviation df row isf target := by
  unfold calculate_target_deviation spec_target_deviation
    create_glucose_dataframe
  have h1 : row.datetime + 150 - 30 = row.datetime + 120 := by ring
  have h2 : row.datetime + 150 + 30 = row.datetime + 180 := by ring
  simp only [h1, h2]

/-- C2: for every row, calculate_bolus_ratio evaluated against the
bolus subset of the table (rows with bolus > 0) equals the claimed
formula: 0.0 when carbs == 0; otherwise select the bolus rows whose
timestamp lies in the closed window of plus or minus 15 minutes around
the timestamp, giving 0.0 on an empty selection and carbs / mean bolus
otherwise; and on the table with rows carbs=40 at time 0, bolus=4 at
time 10min and bolus=4 at time 20min, the carb row gets bolus
ratio 10. -/
theorem bolus_ratio_matches_spec :
    (∀ (df : List Row) (row : Row),
      calculate_bolus_ratio row (create_bolus_dataframe df)
        = spec_bolus_ratio df row) ∧
    calculate_bolus_ratio { datetime := 0, carbs := 40 }
      (create_bolus_dataframe
        [{ datetime := 0, carbs := 40 },
         { datetime := 10, bolus := 4 },
         { datetime := 20, bolus := 4 }]) = 10 := by
  constructor
  · intro df row
    unfold calculate_bolus_ratio spec_bolus_ratio create_bolus_dataframe
    rfl
  · norm_num [calculate_bolus_ratio, create_bolus_dataframe, mean]

/-- C3: on every table of the canonical schema (fields non-negative by
the Record invariant) with at least one row of positive basal and one
of positive bolus, calculate_total_daily_dose equals the mean of the
basal values over rows with nonzero basal plus the mean of the bolus
values over rows with nonzero bolus, and
calculate_insulin_sensitivity_factor equals 1800 divided by that
total; when the nonzero basal rows average 1 and the nonzero bolus
rows average 5, TDD is 6 and ISF is 300. -/
theorem tdd_isf_match_spec (df : List Row)
    (hnn : ∀ r ∈ df, 0 ≤ r.basal ∧ 0 ≤ r.bolus)
    (hbasal : ∃ r ∈ df, 0 < r.basal) (hbolus : ∃ r ∈ df, 0 < r.bolus) :
    calculate_total_daily_dose df = spec_total_daily_dose df ∧
    calculate_insulin_sensitivity_factor df
      = 1800 / calculate_total_daily_dose df ∧
    (mean ((create_basal_dataframe df).map Row.basal) = 1 →
      mean ((create_bolus_dataframe df).map Row.bolus) = 5 →
      calculate_total_daily_dose df = 6 ∧
      calculate_insulin_sensitivity_factor df = 300) := by
  refine ⟨?_, rfl, ?_⟩
  · unfold calculate_total_daily_dose spec_total_daily_dose
      create_basal_dataframe create_bolus_dataframe
    have hfb : df.filter (fun r => decide (0 < r.basal))
        = df.filter (fun r => decide (r.basal ≠ 0)) := by
      apply List.filter_congr
      intro x hx
      have h0 := (hnn x hx).1
      simp only [decide_eq_decide]
      exact h0.lt_iff_ne.trans ne_comm
    have hfo : df.filter (fun r => decide (0 < r.bolus))
        = df.filter (fun r => decide (r.bolus ≠ 0)) := by
      apply List.filter_congr
      intro x hx
      have h0 := (hnn x hx).2
      simp only [decide_eq_decide]
      exact h0.lt_iff_ne.trans ne_comm
    rw [hfb, hfo]
  · intro h1 h5
    have htdd : calculate_total_daily_dose df = 6 := by
      unfold calculate_total_daily_dose
      rw [h1, h5]
      norm_num
    refine ⟨htdd, ?_⟩
    unfold calculate_insulin_sensitivity_factor
    rw [htdd]
    norm_num

/-- Witness for C3 at the two-row table with one basal-1 row and one
bolus-5 row. -/
theorem tdd_isf_match_spec_witness :
    calculate_total_daily_dose
        [{ datetime := 0, basal := 1 }, { datetime := 0, bolus := 5 }] = 6 ∧
    calculate_insulin_sensitivity_factor
        [{ datetime := 0, basal := 1 }, { datetime := 0, bolus := 5 }]
      = 300 := by
  have h := tdd_isf_match_spec
    [{ datetime := 0, basal := 1 }, { datetime := 0, bolus := 5 }]
    (by intro r hr; fin_cases hr <;> norm_num)
    ⟨{ datetime := 0, basal := 1 }, by norm_num, by norm_num⟩
    ⟨{ datetime := 0, bolus := 5 }, by norm_num, by norm_num⟩
  exact h.2.2 (by norm_num [mean, create_basal_dataframe])
    (by norm_num [mean, create_bolus_dataframe])

/-- Association-list lookup misses when no recorded key equals the
requested key; models a Python dict KeyError. -/
theorem lookup_eq_none_of_no_key (l : List (ℤ × ℕ)) (h : ℤ)
    (hk : ∀ p ∈ l, p.1 ≠ h) : l.lookup h = none := by
  induction l with
  | nil => rfl
  | cons a t ih =>
      rw [List.lookup_cons]
      have ha : (h == a.1) = false := by
        simp only [beq_eq_false_iff_ne, ne_eq]
        exact (hk a (List.mem_cons_self a t)).symm
      rw [ha]
      exact ih (fun p hp => hk p (List.mem_cons_of_mem a hp))

/-- C5: the lookup dict built by get_hour_grouping_dict is total on
hours 0 through 23 with value hour divided by 3 (hours 0,1,2 map to
group 0 and hours 21,22,23 map to group 7), and is undefined (a
KeyError, modelled as none) on every input outside that range. -/
theorem hour_grouping_total_and_bounded :
    (∀ h : ℤ, 0 ≤ h → h ≤ 23 → hour_group_of h = some (h.toNat / 3)) ∧
    (∀ h : ℤ, h < 0 ∨ 23 < h → hour_group_of h = none) := by
  constructor
  · have hfin : ∀ n : Fin 24,
        hour_group_of ((n : ℕ) : ℤ) = some ((n : ℕ) / 3) := by decide
    intro h h0 h23
    have hn : h = ((h.toNat : ℕ) : ℤ) := by omega
    have hlt : h.toNat < 24 := by omega
    rw [hn]
    exact hfin ⟨h.toNat, hlt⟩
  · have hkeys : ∀ p ∈ get_hour_grouping_dict.2, 0 ≤ p.1 ∧ p.1 ≤ 23 := by
      decide
    intro h hout
    unfold hour_group_of
    apply lookup_eq_none_of_no_key
    intro p hp
    have := hkeys p hp
    omega

/-- Witness for C5 at hour 22 (group 7) and at the out-of-range
inputs 24 and -1. -/
theorem hour_grouping_total_and_bounded_witness :
    hour_group_of 22 = some 7 ∧ hour_group_of 24 = none ∧
    hour_group_of (-1) = none := by
  refine ⟨?_, ?_, ?_⟩
  · have h := hour_grouping_total_and_bounded.1 22 (by norm_num) (by norm_num)
    simpa using h
  · exact hour_grouping_total_and_bounded.2 24 (Or.inr (by norm_num))
  · exact hour_grouping_total_and_bounded.2 (-1) (Or.inl (by norm_num))

/-- C6: transform_glucose maps the sentinel "High" to exactly 400.0
and the sentinel "Low" to exactly 40.0, parses every other value as a
real number (the float conversion), and raises (none) exactly for the
values that are neither a sentinel nor numeric. -/
theorem transform_glucose_sentinels :
    transform_glucose "High" = some 400 ∧
    transform_glucose "Low" = some 40 ∧
    (∀ s : String, s ≠ "High" → s ≠ "Low" →
      transform_glucose s = float_of_string s) ∧
    (∀ s : String, transform_glucose s = none ↔
      s ≠ "High" ∧ s ≠ "Low" ∧ float_of_string s = none) := by
  refine ⟨rfl, rfl, ?_, ?_⟩
  · intro s hH hL
    unfold transform_glucose
    rw [if_neg hH, if_neg hL]
  · intro s
    unfold transform_glucose
    by_cases hH : s = "High"
    · simp [hH]
    · by_cases hL : s = "Low"
      · simp [hL]
      · simp [hH, hL]

/-- Witness for C6 at the non-sentinel non-numeric value "abc". -/
theorem transform_glucose_sentinels_witness :
    transform_glucose "abc" = none := by
  rw [transform_glucose_sentinels.2.2.2 "abc"]
  refine ⟨by decide, by decide, by decide⟩

/-- C9: in the adapter finishing step, the bolus column is the insulin
value only on rows whose Event Type is Insulin and Event Subtype is
Fast-Acting, the basal column only on rows whose Event Type is Insulin
and Event Subtype is Long-Acting, and since no row carries both
subtypes the two columns are never both nonzero on the same row. -/
theorem bolus_basal_never_both_nonzero :
    ∀ row : ClarityRow,
      (populate_bolus_insulin row ≠ 0 →
        row.eventType = "Insulin" ∧ row.eventSubtype = "Fast-Acting") ∧
      (populate_basal_insulin row ≠ 0 →
        row.eventType = "Insulin" ∧ row.eventSubtype = "Long-Acting") ∧
      (populate_bolus_insulin row = 0 ∨ populate_basal_insulin row = 0) := by
  intro row
  refine ⟨?_, ?_, ?_⟩
  · intro hne
    by_contra hcond
    exact hne (by simp [populate_bolus_insulin, if_neg hcond])
  · intro hne
    by_contra hcond
    exact hne (by simp [populate_basal_insulin, if_neg hcond])
  · by_cases hfa : row.eventSubtype = "Fast-Acting"
    · right
      simp [populate_basal_insulin, hfa]
    · left
      simp [populate_bolus_insulin, hfa]

/-- Witness for C9 at a Fast-Acting insulin row carrying 3 units. -/
theorem bolus_basal_never_both_nonzero_witness :
    populate_bolus_insulin (ClarityRow.mk "Insulin" "Fast-Acting" 3) ≠ 0 ∧
    ClarityRow.eventType (ClarityRow.mk "Insulin" "Fast-Acting" 3)
        = "Insulin" ∧
    ClarityRow.eventSubtype (ClarityRow.mk "Insulin" "Fast-Acting" 3)
        = "Fast-Acting" := by
  have hne : populate_bolus_insulin (ClarityRow.mk "Insulin" "Fast-Acting" 3)
      ≠ 0 := by
    norm_num [populate_bolus_insulin]
  have h := (bolus_basal_never_both_nonzero
    (ClarityRow.mk "Insulin" "Fast-Acting" 3)).1 hne
  exact ⟨hne, h.1, h.2⟩

/-- C7: the enriching analytics operations only add columns: on every
pre-existing column the output table of add_target_deviation,
add_bolus_ratio and recalculate_bolus_ratio agrees with the input
table (projecting away the added columns recovers the input row for
row), and the scalar operations TDD and ISF return plain numbers, so
no operation changes its input table. -/
theorem analytics_preserve_input_columns :
    ∀ (df : List Row) (isf target : ℚ),
      (add_target_deviation_to_dataframe df isf target).map Prod.fst = df ∧
      (add_bolus_ratio_to_dataframe df).map Prod.fst = df ∧
      (recalculate_bolus_ratio df isf target).map RowR.base = df := by
  intro df isf target
  refine ⟨?_, ?_, ?_⟩
  · rw [add_target_deviation_to_dataframe, List.map_map]
    exact List.map_id df
  · rw [add_bolus_ratio_to_dataframe, List.map_map]
    exact List.map_id df
  · rw [recalculate_bolus_ratio, List.map_map]
    exact List.map_id df

/-- C8: add_target_deviation_to_dataframe is deterministic and
repeatable: with an explicit nonzero isf its target_deviation column
is the pointwise evaluation of calculate_target_deviation against the
glucose subset of the base table, so two calls on the same base table
with the same isf and target produce identical columns. -/
theorem add_target_deviation_repeatable :
    ∀ (df : List Row) (isf target : ℚ), isf ≠ 0 →
      ((add_target_deviation_to_dataframe df isf target).map Prod.snd
        = df.map (fun r =>
            calculate_target_deviation r (create_glucose_dataframe df)
              isf target)) ∧
      ((add_target_deviation_to_dataframe df isf target).map Prod.snd
        = (add_target_deviation_to_dataframe df isf target).map
            Prod.snd) := by
  intro df isf target hisf
  refine ⟨?_, rfl⟩
  simp [add_target_deviation_to_dataframe, if_neg hisf, List.map_map,
    Function.comp]

/-- Witness for C8 at a one-row table with isf 10. -/
theorem add_target_deviation_repeatable_witness :
    (add_target_deviation_to_dataframe [{ datetime := 0, carbs := 40 }]
        10 120).map Prod.snd
      = [calculate_target_deviation { datetime := 0, carbs := 40 }
          (create_glucose_dataframe [{ datetime := 0, carbs := 40 }])
          10 120] := by
  have h := (add_target_deviation_repeatable
    [{ datetime := 0, carbs := 40 }] 10 120 (by norm_num)).1
  simpa using h

/-- C10: in the output of recalculate_bolus_ratio, every row with
positive carbs, positive bolus_ratio and zero target_deviation gets
new_ratio equal to its bolus_ratio: carbs / ((carbs / bolus_ratio) + 0)
collapses to bolus_ratio, so the recalculation is the identity on rows
with zero target deviation. -/
theorem recalculate_identity_on_zero_deviation :
    ∀ (df : List Row) (isf target : ℚ) (x : RowR),
      x ∈ recalculate_bolus_ratio df isf target →
      0 < x.base.carbs → 0 < x.bolus_ratio → x.target_deviation = 0 →
      x.new_ratio = PVal.fin x.bolus_ratio := by
  intro df isf target x hx hc hbr htd
  rw [recalculate_bolus_ratio, List.mem_map] at hx
  obtain ⟨r, hr, rfl⟩ := hx
  simp only at hc hbr htd ⊢
  rw [htd]
  have hcne : r.carbs ≠ 0 := ne_of_gt hc
  have hbrne : calculate_bolus_ratio r (create_bolus_dataframe df) ≠ 0 :=
    ne_of_gt hbr
  have hq : 0 < r.carbs / calculate_bolus_ratio r (create_bolus_dataframe df) :=
    div_pos hc hbr
  simp only [PVal.div, PVal.add, PVal.fillna0, if_neg hbrne, add_zero,
    if_neg (ne_of_gt hq)]
  rw [div_div_eq_mul_div, mul_comm, mul_div_assoc, div_self hcne, mul_one]

/-- Witness for C10 at a one-row table whose row has carbs 40 and
bolus 4, giving bolus_ratio 10 and target_deviation 0. -/
theorem recalculate_identity_on_zero_deviation_witness :
    RowR.new_ratio
        (RowR.mk { datetime := 0, carbs := 40, bolus := 4 } 10 0 (PVal.fin 10))
      = PVal.fin (RowR.bolus_ratio
        (RowR.mk { datetime := 0, carbs := 40, bolus := 4 } 10 0
          (PVal.fin 10))) := by
  have hlist : recalculate_bolus_ratio
      [{ datetime := 0, carbs := 40, bolus := 4 }] 10 120
      = [RowR.mk { datetime := 0, carbs := 40, bolus := 4 } 10 0
          (PVal.fin 10)] := by
    norm_num [recalculate_bolus_ratio, calculate_bolus_ratio,
      calculate_target_deviation, create_bolus_dataframe,
      create_glucose_dataframe, mean, PVal.div, PVal.add, PVal.fillna0]
  have hmem : RowR.mk { datetime := 0, carbs := 40, bolus := 4 } 10 0
      (PVal.fin 10) ∈ recalculate_bolus_ratio
      [{ datetime := 0, carbs := 40, bolus := 4 }] 10 120 := by
    rw [hlist]; exact List.mem_singleton.mpr rfl
  exact recalculate_identity_on_zero_deviation
    [{ datetime := 0, carbs := 40, bolus := 4 }] 10 120 _ hmem
    (by norm_num) (by norm_num) rfl

/-- C4 counterexample: on the table with a carb row (carbs 40,
bolus 5) at time 0 and a glucose row (70) at time 150 minutes, with
isf 10 and target 120, the carb row gets bolus_ratio 8 and
target_deviation -5, so the new_ratio denominator
(carbs / bolus_ratio) + target_deviation is 40/8 - 5 = 0; the division
by zero produces positive infinity, which fillna(0) leaves in place,
so an undefined value from a division by zero is NOT replaced with
0.0, refuting the universal part of the claim. -/
theorem recalculate_fillna_counterexample :
    (recalculate_bolus_ratio
        [{ datetime := 0, carbs := 40, bolus := 5 },
         { datetime := 150, glucose := 70 }] 10 120).map RowR.new_ratio
      = [PVal.posInf, PVal.fin 0] ∧
    PVal.posInf ≠ PVal.fin 0 ∧ PVal.posInf ≠ PVal.nan := by
  refine ⟨?_, by decide, by decide⟩
  norm_num [recalculate_bolus_ratio, calculate_bolus_ratio,
    calculate_target_deviation, create_bolus_dataframe,
    create_glucose_dataframe, mean, PVal.div, PVal.add, PVal.fillna0]

/-- C4 amended: recalculate_bolus_ratio replaces every NaN with 0.0,
so no NaN remains in new_ratio; on rows with positive carbs and zero
bolus_ratio the result is 0.0 (the inner division by zero gives an
infinity and carbs divided by infinity is 0); and on a table where
the computed bolus_ratio and target_deviation are 0 for all rows the
new_ratio column is entirely 0.0. Division-by-zero infinities from a
vanishing outer denominator are not replaced (see the
counterexample). -/
theorem recalculate_fillna_amended :
    (∀ (df : List Row) (isf target : ℚ) (x : RowR),
      x ∈ recalculate_bolus_ratio df isf target →
        RowR.new_ratio x ≠ PVal.nan) ∧
    (∀ (df : List Row) (isf target : ℚ) (x : RowR),
      x ∈ recalculate_bolus_ratio df isf target →
      0 < x.base.carbs → x.bolus_ratio = 0 → x.new_ratio = PVal.fin 0) ∧
    (recalculate_bolus_ratio
        [{ datetime := 0, carbs := 40 }, { datetime := 100 }] 10 120).map
          RowR.new_ratio = [PVal.fin 0, PVal.fin 0] := by
  refine ⟨?_, ?_, ?_⟩
  · intro df isf target x hx
    rw [recalculate_bolus_ratio, List.mem_map] at hx
    obtain ⟨r, hr, rfl⟩ := hx
    simp only
    generalize (PVal.div (PVal.fin r.carbs) _) = v
    cases v <;> simp [PVal.fillna0]
  · intro df isf target x hx hc hbr
    rw [recalculate_bolus_ratio, List.mem_map] at hx
    obtain ⟨r, hr, rfl⟩ := hx
    simp only at hc hbr ⊢
    rw [hbr]
    have hcne : r.carbs ≠ 0 := ne_of_gt hc
    simp [PVal.div, PVal.add, PVal.fillna0, hcne, hc]
  · norm_num [recalculate_bolus_ratio, calculate_bolus_ratio,
      calculate_target_deviation, create_bolus_dataframe,
      create_glucose_dataframe, mean, PVal.div, PVal.add, PVal.fillna0]

/-- Witness for the amended C4 at the two-row scenario table: the carb
row (carbs 40, computed bolus_ratio 0) has new_ratio 0 and no NaN. -/
theorem recalculate_fillna_amended_witness :
    RowR.new_ratio (RowR.mk { datetime := 0, carbs := 40 } 0 0 (PVal.fin 0))
        ≠ PVal.nan ∧
    RowR.new_ratio (RowR.mk { datetime := 0, carbs := 40 } 0 0 (PVal.fin 0))
        = PVal.fin 0 := by
  have hlist : recalculate_bolus_ratio
      [{ datetime := 0, carbs := 40 }, { datetime := 100 }] 10 120
      = [RowR.mk { datetime := 0, carbs := 40 } 0 0 (PVal.fin 0),
         RowR.mk { datetime := 100 } 0 0 (PVal.fin 0)] := by
    norm_num [recalculate_bolus_ratio, calculate_bolus_ratio,
      calculate_target_deviation, create_bolus_dataframe,
      create_glucose_dataframe, mean, PVal.div, PVal.add, PVal.fillna0]
  have hmem : RowR.mk { datetime := 0, carbs := 40 } 0 0 (PVal.fin 0)
      ∈ recalculate_bolus_ratio
        [{ datetime := 0, carbs := 40 }, { datetime := 100 }] 10 120 := by
    rw [hlist]
    exact List.mem_cons_self _ _
  refine ⟨recalculate_fillna_amended.1 _ 10 120 _ hmem, ?_⟩
  exact recalculate_fillna_amended.2.1 _ 10 120 _ hmem (by norm_num) rfl

end Diabetes
